import Mathlib

/-!
Verification of the pyDQueue task-graph engine.

This file gives a shallow embedding of the two generations of the engine that
live side by side in the repository:

* `src/pydqueue/task.py` together with `src/pydqueue/queue.py`
  (namespaces `TaskPy` and `Qpy` below), and
* `src/pydqueue/core.py` (namespace `Core` below).

Python objects become Lean structures, mutation becomes explicit state
passing, raised exceptions become `Except PyErr`, wall-clock timestamps from
`get_time()` become a `Nat` clock threaded through execution (two ticks per
task invocation: one for the start stamp, one for the end stamp), and the
user-supplied task bodies, black boxes to the engine, become function fields.  Parent references
are modelled as task ids resolved against the current task list, which
mirrors the aliasing of the Python object references (a parent mutated by an
earlier iteration of `run` is seen mutated by later iterations).
-/

namespace PyDQueue

/-- Task flag enum `TaskFlag`, identical in src/pydqueue/task.py lines 15-21
and src/pydqueue/core.py lines 24-30. -/
inductive TaskFlag where
  | not_started
  | failed
  | succeeded
  | error
  | none
deriving DecidableEq

/-- Printable name of a flag, as Python `flag.name` on the enum member. -/
def flagName : TaskFlag → String
  | TaskFlag.not_started => "not_started"
  | TaskFlag.failed => "failed"
  | TaskFlag.succeeded => "succeeded"
  | TaskFlag.error => "error"
  | TaskFlag.none => "none"

/-- Scalar Python values appearing in task outputs and keyword arguments. -/
inductive Atom where
  | none
  | bool (b : Bool)
  | nat (n : Nat)
  | str (s : String)
  | flag (f : TaskFlag)
deriving DecidableEq

/-- Python values flowing through the engine: either a scalar or a string
keyed mapping (task outputs are flat mappings in every modelled flow). -/
inductive Value where
  | atom (a : Atom)
  | dict (entries : List (String × Atom))
deriving DecidableEq

/-- Keyword-argument mapping, as assembled by `**` splatting at call sites. -/
abbrev Kwargs := List (String × Atom)

/-- Python exceptions raised by the engine code. -/
inductive PyErr where
  | valueError (msg : String)
  | runtimeError (msg : String)
  | keyError (msg : String)
  | indexError (msg : String)
  | typeError (msg : String)
  | zeroDivisionError (msg : String)
  | exceptionWrap (e : PyErr)
deriving DecidableEq

/-- Rendering of a captured exception, standing in for Python `repr(e)` in
report lines; the exact text is irrelevant to every claim. -/
def pyReprErr : PyErr → String
  | PyErr.valueError m => "ValueError(" ++ m ++ ")"
  | PyErr.runtimeError m => "RuntimeError(" ++ m ++ ")"
  | PyErr.keyError m => "KeyError(" ++ m ++ ")"
  | PyErr.indexError m => "IndexError(" ++ m ++ ")"
  | PyErr.typeError m => "TypeError(" ++ m ++ ")"
  | PyErr.zeroDivisionError m => "ZeroDivisionError(" ++ m ++ ")"
  | PyErr.exceptionWrap e => "Exception(" ++ pyReprErr e ++ ")"

/-- Python membership test `key in v`.  On a dict it tests the keys; on a
string it is a substring test; on any other value Python raises `TypeError`
(argument of type ... is not iterable), which is exactly what
`Queue.run` in core.py line 250 hits when `parent_task.output` is `None`. -/
def pyContains (v : Value) (key : String) : Except PyErr Bool :=
  match v with
  | Value.dict es => Except.ok (es.any (fun kv => kv.1 == key))
  | Value.atom (Atom.str s) => Except.ok (decide ((s.splitOn key).length > 1))
  | Value.atom _ => Except.error (PyErr.typeError "argument of type NoneType is not iterable")

/-- Python dict assignment `kw[k] = v`: replaces the binding when the key is
present, appends it otherwise. -/
def setKey (kw : Kwargs) (k : String) (v : Atom) : Kwargs :=
  if kw.any (fun kv => kv.1 == k) then
    kw.map (fun kv => if kv.1 == k then (k, v) else kv)
  else kw ++ [(k, v)]

/-- Adds one keyword binding during call assembly; Python raises `TypeError`
when `f(**a, **b)` passes the same keyword twice. -/
def addKw (acc : Kwargs) (kv : String × Atom) : Except PyErr Kwargs :=
  if acc.any (fun e => e.1 == kv.1) then
    Except.error (PyErr.typeError ("got multiple values for keyword argument " ++ kv.1))
  else Except.ok (acc ++ [kv])

/-- Merge of several `**`-splatted dicts at a call site, left to right. -/
def mergeKwargs (ls : List Kwargs) : Except PyErr Kwargs :=
  ls.foldlM (fun acc l => l.foldlM addKw acc) []

/-- Python `str.rjust`-style padding used by the `{name:>{width}}` report
format. -/
def padLeft (s : String) (w : Nat) : String :=
  String.mk (List.replicate (w - s.length) ' ') ++ s

/-- Python `{s:<18}` left-aligned padding. -/
def padRight (s : String) (w : Nat) : String :=
  s ++ String.mk (List.replicate (w - s.length) ' ')

/-- ANSI red wrapper `utils.failtext` from src/pydqueue/utils.py lines 32-34. -/
def failtext (s : String) : String := "\x1B[91m" ++ s ++ "\x1B[0m"

/-- ANSI green wrapper `utils.oktext` from src/pydqueue/utils.py lines 37-39. -/
def oktext (s : String) : String := "\x1B[92m" ++ s ++ "\x1B[0m"

/-- Maximum rendered line width, `MAX_LINE_LENGTH` in queue.py line 8 and
core.py line 14. -/
def MAX_LINE_LENGTH : Nat := 123

namespace TaskPy

/-- Snapshot of the attributes of a parent `Task` reference that the child
reads directly off the stored object: identity (`id`), the `name` property,
`has_parents`, and the state the object carries at attachment time.  During
`run` the live flag and output are resolved against the queue (see
`Qpy.resolveParentState`); the snapshot fields only matter for a parent that
never sits in the queue, whose object state is never mutated again. -/
structure Parent where
  id : Nat
  name : String
  has_parents : Bool
  flag : TaskFlag
  output : Value
deriving DecidableEq

/-- The `Task` class of src/pydqueue/task.py lines 47-158.  `pname` is the
`_name` attribute (`Option` because the constructor default is `None`);
`body` is the user callable `_function`, a black box to the engine, returning the engine result
shape `(flag, output)` or raising.  The constant `**kwargs` configuration
that queue.py forwards to every call (only `verbose` in the source) carries
no engine semantics and is folded into the body closure. -/
structure Task where
  id : Nat
  pname : Option String
  body : TaskFlag → Value → Except PyErr (TaskFlag × Value)
  parents : List Parent
  flag : TaskFlag
  output : Value
  start_time : Option Nat
  end_time : Option Nat
  err_msg : Option PyErr

/-- The `name` property, task.py lines 117-123: a synthetic `Task<id>` name
when `_name` is `None`. -/
def Task.name (t : Task) : String :=
  t.pname.getD ("Task" ++ toString t.id)

/-- `has_parents` property, task.py lines 112-115. -/
def Task.has_parents (t : Task) : Bool :=
  t.parents.length > 0

/-- Snapshot taken when a task is attached as a parent. -/
def Parent.ofTask (t : Task) : Parent :=
  { id := t.id, name := t.name, has_parents := t.has_parents,
    flag := t.flag, output := t.output }

/-- `Task.__call__`, task.py lines 62-76: stamps the start time, calls the
body with the predecessor flag and the input payload, and on a raised
failure records `flag = error`, `output = {}` and the captured exception;
the end time is stamped after the try/except in both branches.  There is no
re-raise path: `__call__` always swallows the body failure.  One clock tick
per `get_time()` call. -/
def Task.call (self : Task) (clock : Nat) (parent_success : TaskFlag)
    (input_data : Value) : Task :=
  let started := { self with start_time := some clock }
  match self.body parent_success input_data with
  | Except.ok (flag, output) =>
      { started with end_time := some (clock + 1), flag := flag,
                     output := output, err_msg := Option.none }
  | Except.error e =>
      { started with end_time := some (clock + 1), flag := TaskFlag.error,
                     output := Value.dict [], err_msg := some e }

/-- `Task.add_parent`, task.py lines 125-140: rejects a duplicate parent
(Python `parent_task == parent` is object identity, here id equality), a
self reference, and a parent that was constructed later while already
having parents of its own; otherwise appends to `parents`. -/
def Task.add_parent (self : Task) (parent_task : Task) : Except PyErr Task :=
  if self.parents.any (fun parent => parent.id == parent_task.id) then
    Except.error (PyErr.valueError "already exists as parent task!")
  else if self.id == parent_task.id then
    Except.error (PyErr.runtimeError "Cannot add a task to itself!")
  else if self.id < parent_task.id && parent_task.has_parents then
    Except.error (PyErr.runtimeError "A task added must has no parents or be computed before this task!")
  else
    Except.ok { self with parents := self.parents ++ [Parent.ofTask parent_task] }

/-- `Task.remove_parent`, task.py lines 142-144: `list.pop(index)`, raising
`IndexError` when the index is out of range (negative indices unused by the
engine and unmodelled). -/
def Task.remove_parent (self : Task) (index : Nat) : Except PyErr Task :=
  if index < self.parents.length then
    Except.ok { self with parents := self.parents.eraseIdx index }
  else Except.error (PyErr.indexError "pop index out of range")

/-- The loop header of `remove_parent_by_name` reads
`for i, parent in self.parents:` (task.py line 148, and identically
core.py line 379) — it iterates the parent list itself instead of
`enumerate(self.parents)`, so every loop step tuple-unpacks a stored parent,
which is a `Task` object and not iterable: Python raises `TypeError` at the
first element. -/
def unpackPair (_ : Parent) : Except PyErr (Nat × Parent) :=
  Except.error (PyErr.typeError "cannot unpack non-iterable Task object")

/-- Body of the `remove_parent_by_name` scan over the parent list; the
comparison and `pop` after a successful unpack mirror the source but are
unreachable because `unpackPair` always raises. -/
def removeParentByNameGo (self : Task) (parentName : String) :
    List Parent → Except PyErr Task
  | [] => Except.error (PyErr.indexError
      ("Could not find parent with name " ++ parentName ++ " in list of parents"))
  | p :: rest =>
    match unpackPair p with
    | Except.error e => Except.error e
    | Except.ok (i, parent) =>
      if parent.name == parentName then
        Except.ok { self with parents := self.parents.eraseIdx i }
      else removeParentByNameGo self parentName rest

/-- `Task.remove_parent_by_name`, task.py lines 146-153 (the same body as
`QTask.remove_parent_by_name`, core.py lines 377-384): with an empty parent
list the loop never runs and the trailing `IndexError` is raised; with a
non-empty list the first iteration raises `TypeError` (see `unpackPair`). -/
def Task.remove_parent_by_name (self : Task) (parentName : String) :
    Except PyErr Task :=
  removeParentByNameGo self parentName self.parents

end TaskPy

namespace Qpy

open TaskPy

/-- The `Queue` class of src/pydqueue/queue.py lines 11-114. -/
structure Queue where
  tasks : List Task

/-- `Queue.check`, queue.py lines 49-53: collects the task names (the
`is not None` filter is vacuous because the `name` property never returns
`None`) and raises `RuntimeError` unless every `Counter` value is 1. -/
def Queue.check (q : Queue) : Except PyErr Unit :=
  let task_names := q.tasks.map Task.name
  if task_names.all (fun n => task_names.count n == 1) then Except.ok ()
  else Except.error (PyErr.runtimeError "All tasks must have different names!")

/-- One call of a task body performed by `Queue.run`: which task was
invoked, with which flag argument and which input payload. -/
structure Invocation where
  task_id : Nat
  flag : TaskFlag
  input : Value
deriving DecidableEq

/-- Mutable state of a `Queue.run` traversal: the task list (tasks mutate in
place), the loop-carried `flag` variable, the clock, and the trace of body
invocations performed so far. -/
structure RunSt where
  tasks : List Task
  flag : TaskFlag
  clock : Nat
  trace : List Invocation

/-- Resolution of a stored parent reference: the live flag and output of the
aliased object, looked up by identity in the current task list, falling back
to the attachment-time snapshot for a parent that is not in the queue (such
an object is never mutated by `run`, so its snapshot stays exact). -/
def resolveParentState (tasks : List Task) (pr : Parent) : TaskFlag × Value :=
  match tasks.find? (fun t => t.id == pr.id) with
  | some t => (t.flag, t.output)
  | Option.none => (pr.flag, pr.output)

/-- Fallback used when `run` indexes its own task list; unreachable because
`run` only uses indices below the list length. -/
def defaultTask : Task :=
  { id := 0, pname := Option.none,
    body := fun _ _ => Except.error (PyErr.runtimeError "unreachable"),
    parents := [], flag := TaskFlag.not_started, output := Value.atom Atom.none,
    start_time := Option.none, end_time := Option.none, err_msg := Option.none }

/-- The parent scan of `Queue.run`, queue.py lines 79-85: every parent is
tried in attachment order and the task is called — with the parent flag and
the parent output — at **each** parent whose flag is `succeeded`; the loop
has no `break`, so scanning continues past a success, and
`all_parents_failed` (the returned `Bool`) is `False` as soon as one parent
succeeded. -/
def scanParentsQ (tasks : List Task) (t : Task) (clock : Nat)
    (trace : List Invocation) : List Parent → Task × Nat × List Invocation × Bool
  | [] => (t, clock, trace, true)
  | pr :: rest =>
    let ps := resolveParentState tasks pr
    if ps.1 = TaskFlag.succeeded then
      let t2 := t.call clock ps.1 ps.2
      let r := scanParentsQ tasks t2 (clock + 2)
        (trace ++ [{ task_id := t.id, flag := ps.1, input := ps.2 }]) rest
      (r.1, r.2.1, r.2.2.1, false)
    else scanParentsQ tasks t clock trace rest

/-- The body of the `for itask, task in enumerate(self.tasks)` loop of
`Queue.run`, queue.py lines 65-96.  The first task receives the initial
input data and the `none` sentinel flag; later tasks receive an empty
payload.  A task with parents goes through the parent scan, and when all
parents failed it is invoked anyway with flag `failed` (which also becomes
the loop-carried flag) and its start time is re-stamped after the call
(line 91).  A parent-less task is invoked with the loop-carried flag. -/
def runTaskQ (initial_input_data : Value) (st : RunSt) (i : Nat) : RunSt :=
  let t := (st.tasks.get? i).getD defaultTask
  let input_data := if i = 0 then initial_input_data else Value.dict []
  let flag0 := if i = 0 then TaskFlag.none else st.flag
  if t.parents ≠ [] then
    let r := scanParentsQ st.tasks t st.clock st.trace t.parents
    if r.2.2.2 then
      let flag1 := TaskFlag.failed
      let t2 := Task.call r.1 r.2.1 flag1 input_data
      let t3 := { t2 with start_time := some (r.2.1 + 2) }
      { tasks := st.tasks.set i t3, flag := flag1, clock := r.2.1 + 3,
        trace := r.2.2.1 ++ [{ task_id := t.id, flag := flag1, input := input_data }] }
    else
      { tasks := st.tasks.set i r.1, flag := flag0, clock := r.2.1,
        trace := r.2.2.1 }
  else
    let t2 := t.call st.clock flag0 input_data
    { tasks := st.tasks.set i t2, flag := flag0, clock := st.clock + 2,
      trace := st.trace ++ [{ task_id := t.id, flag := flag0, input := input_data }] }

/-- `Queue.run`, queue.py lines 55-96: performs `check()` first (a failure
propagates before any task is touched), then iterates the tasks once in
list order.  The initial value of the carried flag variable is irrelevant
because iteration 0 always overwrites it with the `none` sentinel. -/
def Queue.run (q : Queue) (initial_input_data : Value) : Except PyErr RunSt :=
  match q.check with
  | Except.error e => Except.error e
  | Except.ok _ =>
    Except.ok ((List.range q.tasks.length).foldl (runTaskQ initial_input_data)
      { tasks := q.tasks, flag := TaskFlag.none, clock := 0, trace := [] })

end Qpy

namespace Core

/-- The `QTask` wrapper of src/pydqueue/core.py lines 283-391: a task inside
a queue, carrying the execution state.  `body` is the wrapped `_run`
callable, receiving the positional arguments and the keyword mapping that
`Queue.run` assembles (`stop_queue_on_error` is popped off before the body
is called and is therefore a separate parameter of `QTask.run` below).
Parent references are stored as task ids and resolved against the queue;
`add_parent` guarantees membership. -/
structure QTask where
  id : Nat
  task_clsname : String
  body : List Value → Kwargs → Except PyErr Value
  parents : List Nat
  flag : TaskFlag
  output : Value
  start_time : Option Nat
  end_time : Option Nat
  err_msg : Option PyErr

/-- The `name` rendered at `Task.__init__`, core.py line 46:
`task_clsname<id>`. -/
def QTask.name (t : QTask) : String :=
  t.task_clsname ++ "<" ++ toString t.id ++ ">"

/-- `has_parents` property, core.py lines 333-336. -/
def QTask.has_parents (t : QTask) : Bool :=
  t.parents.length > 0

/-- The `Queue` class of core.py lines 125-280. -/
structure Queue where
  tasks : List QTask

/-- Fallback for parent-id resolution; unreachable through the public API
because `add_parent` only attaches parents that are members of the queue. -/
def defaultQTask : QTask :=
  { id := 0, task_clsname := "",
    body := fun _ _ => Except.error (PyErr.runtimeError "unreachable"),
    parents := [], flag := TaskFlag.not_started, output := Value.atom Atom.none,
    start_time := Option.none, end_time := Option.none, err_msg := Option.none }

/-- Resolution of a stored parent reference by identity in the current task
list. -/
def resolve (tasks : List QTask) (pid : Nat) : QTask :=
  (tasks.find? (fun t => t.id == pid)).getD defaultQTask

/-- `Queue.check`, core.py lines 188-192, identical to the queue.py check:
raises `RuntimeError` unless all task names are pairwise distinct. -/
def Queue.check (q : Queue) : Except PyErr Unit :=
  let task_names := q.tasks.map QTask.name
  if task_names.all (fun n => task_names.count n == 1) then Except.ok ()
  else Except.error (PyErr.runtimeError "All tasks must have different names!")

/-- `QTask.run`, core.py lines 338-355: stamps the start time, calls the
body; on success sets `flag = succeeded`, stores the output and clears the
error; on a raised failure it re-raises `Exception(e)` when
`stop_queue_on_error` is set (the error value carries the half-updated
task, whose start stamp persists on the Python object), and otherwise
records the failure (`flag = error`, empty output, captured exception) and
stamps the end time. -/
def QTask.run (self : QTask) (clock : Nat) (args : List Value) (kwargs : Kwargs)
    (stop_queue_on_error : Bool) : Except (PyErr × QTask) (QTask × Nat) :=
  let started := { self with start_time := some clock }
  match self.body args kwargs with
  | Except.ok output =>
      Except.ok ({ started with
                   flag := TaskFlag.succeeded, output := output,
                   err_msg := Option.none, end_time := some (clock + 1) }, clock + 2)
  | Except.error e =>
      if stop_queue_on_error then Except.error (PyErr.exceptionWrap e, started)
      else Except.ok ({ started with
                        err_msg := some e, flag := TaskFlag.error,
                        output := Value.dict [], end_time := some (clock + 1) }, clock + 2)

/-- One body invocation performed by the core `Queue.run`: positional
arguments and the keyword mapping the body received (after
`stop_queue_on_error` was popped). -/
structure Invocation where
  task_id : Nat
  args : List Value
  kwargs : Kwargs
deriving DecidableEq

/-- The succeeded-parent branch of the scan, core.py lines 236-245: a dict
output is splatted as keywords and merged with `initial` and the run-level
`kwargs` (no flag argument is passed); any other output is passed
positionally.  Exactly one invocation results. -/
def invokeFromParent (t : QTask) (initial kwargs : Kwargs) (stop : Bool)
    (clock : Nat) (pt : QTask) : Except (PyErr × QTask) (QTask × Nat × Invocation) :=
  match pt.output with
  | Value.dict d =>
    match mergeKwargs [d, initial, kwargs] with
    | Except.error e => Except.error (e, t)
    | Except.ok kw =>
      match QTask.run t clock [] kw stop with
      | Except.error ep => Except.error ep
      | Except.ok (t2, c2) => Except.ok (t2, c2, { task_id := t.id, args := [], kwargs := kw })
  | Value.atom a =>
    match mergeKwargs [initial, kwargs] with
    | Except.error e => Except.error (e, t)
    | Except.ok kw =>
      match QTask.run t clock [Value.atom a] kw stop with
      | Except.error ep => Except.error ep
      | Except.ok (t2, c2) =>
        Except.ok (t2, c2, { task_id := t.id, args := [Value.atom a], kwargs := kw })

/-- The parent scan of the core `Queue.run`, core.py lines 232-245: parents
are resolved in attachment order; the first whose flag is `succeeded` feeds
the task (see `invokeFromParent`) and the loop exits via `break`, so later
parents are never examined.  `Option.none` signals that no parent succeeded
(`all_parents_failed` stayed `True`). -/
def scanParentsCore (tasks : List QTask) (t : QTask) (initial kwargs : Kwargs)
    (stop : Bool) (clock : Nat) :
    List Nat → Except (PyErr × QTask) (Option (QTask × Nat × Invocation))
  | [] => Except.ok Option.none
  | pid :: rest =>
    let pt := resolve tasks pid
    if pt.flag = TaskFlag.succeeded then
      (invokeFromParent t initial kwargs stop clock pt).map some
    else scanParentsCore tasks t initial kwargs stop clock rest

/-- Mutable state of a core `Queue.run` traversal.  The run-level `initial`
and `kwargs` dict variables are threaded because the loop mutates both:
`initial` is reset to `{}` from the second iteration on (line 228) and the
fallback branch can install a `flag` key into `kwargs` (line 251), which
later iterations then also see. -/
structure RunSt where
  tasks : List QTask
  initial : Kwargs
  kwargs : Kwargs
  flag : TaskFlag
  clock : Nat
  trace : List Invocation

/-- The body of the `for itask, _task in enumerate(self.tasks)` loop of the
core `Queue.run`, core.py lines 219-260.  A task with parents goes through
the scan; when no parent succeeded, the fallback (lines 246-253) sets the
carried flag to `failed`, consults the key test `flag not in parent_task.output` on the
**last scanned parent** (a `TypeError` when that output is not a mapping or
string, e.g. still `None`), installs the `flag` key into `kwargs` when absent,
invokes the task with the merged `initial`/`kwargs`, and re-stamps its start
time after the call.  A parent-less task is invoked with the merged
`initial`/`kwargs` only.  Errors carry the state at the raise. -/
def runTaskCore (stop : Bool) (st : RunSt) (i : Nat) : Except (PyErr × RunSt) RunSt :=
  let t := (st.tasks.get? i).getD defaultQTask
  let initial := if i = 0 then st.initial else []
  let flag0 := if i = 0 then TaskFlag.none else st.flag
  if t.parents ≠ [] then
    match scanParentsCore st.tasks t initial st.kwargs stop st.clock t.parents with
    | Except.error (e, tp) =>
      Except.error (e, { st with tasks := st.tasks.set i tp, initial := initial, flag := flag0 })
    | Except.ok (some (t2, c2, inv)) =>
      Except.ok { st with tasks := st.tasks.set i t2, initial := initial,
                          flag := flag0, clock := c2, trace := st.trace ++ [inv] }
    | Except.ok Option.none =>
      let flag1 := TaskFlag.failed
      let pt := resolve st.tasks (t.parents.getLast?.getD 0)
      match pyContains pt.output "flag" with
      | Except.error e =>
        Except.error (e, { st with initial := initial, flag := flag1 })
      | Except.ok hasFlag =>
        let kwargs2 := if hasFlag then st.kwargs else setKey st.kwargs "flag" (Atom.flag flag1)
        match mergeKwargs [initial, kwargs2] with
        | Except.error e =>
          Except.error (e, { st with initial := initial, kwargs := kwargs2, flag := flag1 })
        | Except.ok kw =>
          match QTask.run t st.clock [] kw stop with
          | Except.error (e, tp) =>
            Except.error (e, { st with tasks := st.tasks.set i tp, initial := initial,
                                       kwargs := kwargs2, flag := flag1,
                                       trace := st.trace ++ [{ task_id := t.id, args := [], kwargs := kw }] })
          | Except.ok (t2, c2) =>
            let t3 := { t2 with start_time := some c2 }
            Except.ok { st with tasks := st.tasks.set i t3, initial := initial,
                                kwargs := kwargs2, flag := flag1, clock := c2 + 1,
                                trace := st.trace ++ [{ task_id := t.id, args := [], kwargs := kw }] }
  else
    match mergeKwargs [initial, st.kwargs] with
    | Except.error e =>
      Except.error (e, { st with initial := initial, flag := flag0 })
    | Except.ok kw =>
      match QTask.run t st.clock [] kw stop with
      | Except.error (e, tp) =>
        Except.error (e, { st with tasks := st.tasks.set i tp, initial := initial, flag := flag0,
                                   trace := st.trace ++ [{ task_id := t.id, args := [], kwargs := kw }] })
      | Except.ok (t2, c2) =>
        Except.ok { st with tasks := st.tasks.set i t2, initial := initial,
                            flag := flag0, clock := c2,
                            trace := st.trace ++ [{ task_id := t.id, args := [], kwargs := kw }] }

/-- `Queue.run`, core.py lines 194-260: performs `check()` before the first
iteration (a failure propagates with the untouched state and an empty
trace), then folds the per-task step over the task indices; a raise during
a step aborts the remaining iterations and propagates. -/
def Queue.run (q : Queue) (initial : Kwargs) (stop_queue_on_error : Bool)
    (kwargs : Kwargs) : Except (PyErr × RunSt) RunSt :=
  let st0 : RunSt := { tasks := q.tasks, initial := initial, kwargs := kwargs,
                       flag := TaskFlag.none, clock := 0, trace := [] }
  match q.check with
  | Except.error e => Except.error (e, st0)
  | Except.ok _ => (List.range q.tasks.length).foldlM (runTaskCore stop_queue_on_error) st0

/-- `QTask.add_parent`, core.py lines 357-371: rejects a parent that is not
a member of the queue (`KeyError`), a self reference, and a parent that was
constructed later while already having parents; otherwise appends the
reference.  Unlike the task.py generation there is **no** duplicate-parent
check. -/
def QTask.add_parent (self : QTask) (queue_tasks : List QTask) (parent_task : QTask) :
    Except PyErr QTask :=
  if !(queue_tasks.any (fun t => t.id == parent_task.id)) then
    Except.error (PyErr.keyError "Task not in queue")
  else if self.id == parent_task.id then
    Except.error (PyErr.runtimeError "Cannot add a task to itself!")
  else if self.id < parent_task.id && parent_task.has_parents then
    Except.error (PyErr.runtimeError "A task added must has no parents or be computed before this task!")
  else
    Except.ok { self with parents := self.parents ++ [parent_task.id] }

/-- `QTask.remove_parent`, core.py lines 373-375: `list.pop(index)`. -/
def QTask.remove_parent (self : QTask) (index : Nat) : Except PyErr QTask :=
  if index < self.parents.length then
    Except.ok { self with parents := self.parents.eraseIdx index }
  else Except.error (PyErr.indexError "pop index out of range")

/-- Replacement of the task at an index, the effect of mutating a `QTask`
held inside the queue. -/
def Queue.setTask (q : Queue) (i : Nat) (t : QTask) : Queue :=
  { tasks := q.tasks.set i t }

/-- Label printed for one parent inside `get_infostr`, core.py lines
154-158: the name of the referenced task under `use_task_name`, otherwise
`Task<id>` built from the reference id. -/
def parentLabel (q : Queue) (use_task_name : Bool) (pid : Nat) : String :=
  if use_task_name then QTask.name (resolve q.tasks pid)
  else "Task<" ++ toString pid ++ ">"

/-- Rendering of a parent list inside one `Task<i>(...)` group, with the
comma rule of core.py lines 159-160 (a separator after every parent except
the last, only when there are at least two). -/
def parentsLabel (q : Queue) (use_task_name : Bool) (ps : List Nat) : String :=
  String.join (ps.enum.map (fun ip =>
    parentLabel q use_task_name ip.2 ++
      (if 1 < ps.length ∧ ip.1 ≠ ps.length - 1 then "," else "")))

/-- One iteration of the `get_infostr` loop, core.py lines 147-170: appends
the task group, then for every task but the last the ` --> ` arrow, starting
a visual continuation line when the accumulated string exceeds
`_nlines * MAX_LINE_LENGTH`. -/
def infostrStep (q : Queue) (use_task_name : Bool) (ntasks : Nat)
    (acc : String × Nat) (it : Nat × QTask) : String × Nat :=
  let s1 := acc.1 ++
    (if use_task_name then it.2.name else "Task<" ++ toString it.1 ++ ">") ++ "(" ++
    parentsLabel q use_task_name it.2.parents ++ ")"
  if it.1 ≠ ntasks - 1 then
    let s2 := s1 ++ " --> "
    if s2.length > acc.2 * MAX_LINE_LENGTH then (s2 ++ "... \n ... --> ", acc.2 + 1)
    else (s2, acc.2)
  else (s1, acc.2)

/-- `Queue.get_infostr`, core.py lines 140-172: `<Empty Queue>` for an empty
queue, otherwise the dependency-chain rendering. -/
def Queue.get_infostr (q : Queue) (use_task_name : Bool) : String :=
  if q.tasks.length = 0 then "<Empty Queue>"
  else (q.tasks.enum.foldl (infostrStep q use_task_name q.tasks.length) ("", 1)).1

/-- Python `format(x, spec)` on an optional timestamp with the `>` format
spec used by `report`, core.py lines 277 and 280: a set timestamp renders as
its text; a still-unset one is `None`, and `object.__format__` raises
`TypeError` for a non-empty format spec on `None`. -/
def pyFormatOpt : Option Nat → Except PyErr String
  | some ts => Except.ok (toString ts)
  | Option.none => Except.error
      (PyErr.typeError "unsupported format string passed to NoneType.__format__")

/-- One report line, core.py lines 269-280: the flag text is colored red for
`failed`/`error` and green for `succeeded`; both timestamps are formatted
(raising on an unset one); when an error was captured, its representation is
appended. -/
def reportLine (width : Nat) (t : QTask) : Except PyErr String :=
  let task_str :=
    if t.flag = TaskFlag.failed ∨ t.flag = TaskFlag.error then failtext (flagName t.flag)
    else if t.flag = TaskFlag.succeeded then oktext (flagName t.flag)
    else flagName t.flag
  match pyFormatOpt t.start_time with
  | Except.error e => Except.error e
  | Except.ok st =>
    match pyFormatOpt t.end_time with
    | Except.error e => Except.error e
    | Except.ok en =>
      match t.err_msg with
      | some err => Except.ok (padLeft t.name width ++ ": " ++ padRight task_str 18 ++
          " (" ++ st ++ " - " ++ en ++ ") err: " ++ pyReprErr err)
      | Option.none => Except.ok (padLeft t.name width ++ ": " ++ padRight task_str 18 ++
          " (" ++ st ++ " - " ++ en ++ ")")

/-- The per-task print loop of `report`: lines are emitted in order and the
first formatting failure raises. -/
def mapLines (f : QTask → Except PyErr String) : List QTask → Except PyErr (List String)
  | [] => Except.ok []
  | t :: ts =>
    match f t with
    | Except.error e => Except.error e
    | Except.ok s =>
      match mapLines f ts with
      | Except.error e => Except.error e
      | Except.ok ss => Except.ok (s :: ss)

/-- `max(len(_task.name) for _task in self.tasks)`, core.py line 264:
Python `max` raises `ValueError` on an empty sequence. -/
def maxNameLen : List QTask → Except PyErr Nat
  | [] => Except.error (PyErr.valueError "max() arg is an empty sequence")
  | t :: ts => Except.ok ((t :: ts).foldl (fun m x => max m x.name.length) 0)

/-- `Queue.report`, core.py lines 262-280, returning the per-task lines (the
three header lines carry no task data and are omitted from the model): the
first-column width is computed first — raising on an empty queue — and then
one line per task is produced. -/
def Queue.report (q : Queue) : Except PyErr (List String) :=
  match maxNameLen q.tasks with
  | Except.error e => Except.error e
  | Except.ok w => mapLines (reportLine (w + 2)) q.tasks

end Core

/-- `Task.__init__` of task.py lines 50-60: a fresh task with no parents, an
unset result state and flag `not_started`. -/
def TaskPy.Task.init (id : Nat) (nm : Option String)
    (body : TaskFlag → Value → Except PyErr (TaskFlag × Value)) : TaskPy.Task :=
  { id := id, pname := nm, body := body, parents := [],
    flag := TaskFlag.not_started, output := Value.atom Atom.none,
    start_time := Option.none, end_time := Option.none, err_msg := Option.none }

/-- `QTask.__init__` of core.py lines 286-294: a fresh queue task with no
parents, an unset result state and flag `not_started`. -/
def Core.QTask.init (id : Nat) (cls : String)
    (body : List Value → Kwargs → Except PyErr Value) : Core.QTask :=
  { id := id, task_clsname := cls, body := body, parents := [],
    flag := TaskFlag.not_started, output := Value.atom Atom.none,
    start_time := Option.none, end_time := Option.none, err_msg := Option.none }

/-- Trace of a queue.py run outcome (empty when `run` raised before its
loop, which is the only way that model raises). -/
def qpyRunTrace : Except PyErr Qpy.RunSt → List Qpy.Invocation
  | Except.ok st => st.trace
  | Except.error _ => []

/-- Raised error of a core run outcome, when any. -/
def coreRunErr : Except (PyErr × Core.RunSt) Core.RunSt → Option PyErr
  | Except.error ep => some ep.1
  | Except.ok _ => Option.none

/-- Invocation trace left by a core run, also at the point of a raise. -/
def coreRunTrace : Except (PyErr × Core.RunSt) Core.RunSt → List Core.Invocation
  | Except.error ep => ep.2.trace
  | Except.ok st => st.trace

/-- Flags of all tasks after a core run, also at the point of a raise. -/
def coreRunFlags : Except (PyErr × Core.RunSt) Core.RunSt → List TaskFlag
  | Except.error ep => ep.2.tasks.map Core.QTask.flag
  | Except.ok st => st.tasks.map Core.QTask.flag

/-! ## Claim C3 -/

/-- C3: for every task invocation whose body raises, in the default mode
without stop-on-error, the flag is set to `error`, the output to the empty
mapping, the error field holds the captured failure, and the end timestamp
is recorded unconditionally — both for `Task.__call__` (task.py lines
62-76, which has no stop mode at all) and for `QTask.run` with
`stop_queue_on_error=False` (core.py lines 338-355). -/
theorem c3_raise_sets_error_state
    (t : TaskPy.Task) (clock : Nat) (f : TaskFlag) (v : Value) (e : PyErr)
    (h : t.body f v = Except.error e)
    (tc : Core.QTask) (clock2 : Nat) (args : List Value) (kw : Kwargs) (e2 : PyErr)
    (h2 : tc.body args kw = Except.error e2) :
    ((t.call clock f v).flag = TaskFlag.error ∧
     (t.call clock f v).output = Value.dict [] ∧
     (t.call clock f v).err_msg = some e ∧
     (t.call clock f v).end_time = some (clock + 1)) ∧
    (∃ t2 c2, Core.QTask.run tc clock2 args kw false = Except.ok (t2, c2) ∧
      t2.flag = TaskFlag.error ∧ t2.output = Value.dict [] ∧
      t2.err_msg = some e2 ∧ t2.end_time = some (clock2 + 1)) := by
  refine ⟨?_, ?_⟩
  · simp [TaskPy.Task.call, h]
  · exact ⟨{ tc with
             start_time := some clock2, err_msg := some e2, flag := TaskFlag.error,
             output := Value.dict [], end_time := some (clock2 + 1) }, clock2 + 2,
           by simp [Core.QTask.run, h2], rfl, rfl, rfl, rfl⟩

/-- Body used by the concrete error-path instances: raises on every call. -/
def raisingBodyT : TaskFlag → Value → Except PyErr (TaskFlag × Value) :=
  fun _ _ => Except.error (PyErr.valueError "boom")

/-- Core-shaped body raising on every call. -/
def raisingBodyC : List Value → Kwargs → Except PyErr Value :=
  fun _ _ => Except.error (PyErr.zeroDivisionError "division by zero")

/-- Witness for C3 at a concrete raising body in both generations. -/
theorem c3_raise_sets_error_state_witness :
    (((TaskPy.Task.init 0 (some "t") raisingBodyT).call 5 TaskFlag.none
        (Value.dict [])).flag = TaskFlag.error ∧
     ((TaskPy.Task.init 0 (some "t") raisingBodyT).call 5 TaskFlag.none
        (Value.dict [])).output = Value.dict [] ∧
     ((TaskPy.Task.init 0 (some "t") raisingBodyT).call 5 TaskFlag.none
        (Value.dict [])).err_msg = some (PyErr.valueError "boom") ∧
     ((TaskPy.Task.init 0 (some "t") raisingBodyT).call 5 TaskFlag.none
        (Value.dict [])).end_time = some 6) ∧
    (∃ t2 c2, Core.QTask.run (Core.QTask.init 0 "T" raisingBodyC) 7 [] [] false =
        Except.ok (t2, c2) ∧
      t2.flag = TaskFlag.error ∧ t2.output = Value.dict [] ∧
      t2.err_msg = some (PyErr.zeroDivisionError "division by zero") ∧
      t2.end_time = some 8) :=
  c3_raise_sets_error_state (TaskPy.Task.init 0 (some "t") raisingBodyT) 5
    TaskFlag.none (Value.dict []) (PyErr.valueError "boom") rfl
    (Core.QTask.init 0 "T" raisingBodyC) 7 [] []
    (PyErr.zeroDivisionError "division by zero") rfl

/-! ## Claim C6 -/

/-- C6 (amended): `Task.add_parent` of task.py lines 125-140 does reject a
parent already present, with `ValueError`, before any other check, and the
error leaves the task — in particular its parent list — unchanged.  The
claim fails for the core.py generation, see the counterexample below. -/
theorem c6_taskpy_duplicate_parent_rejected
    (t p : TaskPy.Task)
    (h : t.parents.any (fun parent => parent.id == p.id) = true) :
    TaskPy.Task.add_parent t p =
      Except.error (PyErr.valueError "already exists as parent task!") := by
  simp [TaskPy.Task.add_parent, h]

/-- Body for the duplicate-parent instances; never invoked. -/
def idleBodyT : TaskFlag → Value → Except PyErr (TaskFlag × Value) :=
  fun _ _ => Except.ok (TaskFlag.succeeded, Value.dict [])

/-- Core-shaped body for the duplicate-parent instances; never invoked. -/
def idleBodyC : List Value → Kwargs → Except PyErr Value :=
  fun _ _ => Except.ok (Value.dict [])

/-- Witness for C6 on a task that already has the candidate as parent. -/
theorem c6_taskpy_duplicate_parent_rejected_witness :
    TaskPy.Task.add_parent
      { TaskPy.Task.init 1 (some "child") idleBodyT with
        parents := [TaskPy.Parent.ofTask (TaskPy.Task.init 0 (some "par") idleBodyT)] }
      (TaskPy.Task.init 0 (some "par") idleBodyT) =
      Except.error (PyErr.valueError "already exists as parent task!") :=
  c6_taskpy_duplicate_parent_rejected
    { TaskPy.Task.init 1 (some "child") idleBodyT with
      parents := [TaskPy.Parent.ofTask (TaskPy.Task.init 0 (some "par") idleBodyT)] }
    (TaskPy.Task.init 0 (some "par") idleBodyT) rfl

/-- Queue membership context for the C6 counterexample: task `A<0>` and a
task `B<1>` that already lists `A<0>` as parent. -/
def c6tasks : List Core.QTask :=
  [Core.QTask.init 0 "A" idleBodyC,
   { Core.QTask.init 1 "B" idleBodyC with parents := [0] }]

/-- C6 counterexample: `QTask.add_parent` of core.py lines 357-371 performs
no duplicate check — re-adding the already attached parent `A<0>` succeeds
and the parent list becomes `[0, 0]` instead of failing with a
duplicate-parent error and staying `[0]`. -/
theorem c6_core_duplicate_parent_counterexample :
    (Core.QTask.add_parent { Core.QTask.init 1 "B" idleBodyC with parents := [0] }
        c6tasks (Core.QTask.init 0 "A" idleBodyC)).map Core.QTask.parents =
      Except.ok [0, 0] := rfl

/-! ## Claim C5 -/

/-- Auxiliary: when every element passes the `Counter` test of `check` —
its count in the list is exactly one — the list has no duplicates. -/
theorem nodup_of_all_count_one : ∀ (l : List String),
    (l.all fun n => l.count n == 1) = true → l.Nodup
  | [], _ => List.nodup_nil
  | a :: t, h => by
    rw [List.all_eq_true] at h
    have ha : (a :: t).count a = 1 := by
      have h1 := h a (List.mem_cons_self a t)
      simpa using h1
    have hat : t.count a = 0 := by
      rw [List.count_cons_self] at ha
      omega
    have hmem : a ∉ t := List.count_eq_zero.mp hat
    have ht : (t.all fun n => t.count n == 1) = true := by
      rw [List.all_eq_true]
      intro n hn
      have h2 : (a :: t).count n = 1 := by
        have h3 := h n (List.mem_cons_of_mem a hn)
        simpa using h3
      have hpos : 0 < t.count n := List.count_pos_iff.mpr hn
      rw [List.count_cons] at h2
      have hc : t.count n = 1 := by
        by_cases hb : (a == n) = true
        · simp [hb] at h2
          omega
        · simp [hb] at h2
          omega
      simp [hc]
    exact List.nodup_cons.mpr ⟨hmem, nodup_of_all_count_one t ht⟩

/-- C5: a graph in which two tasks share a name is rejected by `check()`
(core.py lines 188-192; queue.py lines 49-53 are identical) with a
deterministic `RuntimeError`, and `run` — which performs the check before
its first iteration (core.py line 208, queue.py line 61) — propagates that
error with an empty invocation trace and the task list untouched: no task
body is ever invoked. -/
theorem c5_duplicate_names_prevent_run
    (q : Core.Queue) (i j : Fin q.tasks.length) (hij : i ≠ j)
    (hname : (q.tasks.get i).name = (q.tasks.get j).name)
    (initial : Kwargs) (stop : Bool) (kwargs : Kwargs) :
    ∃ st, Core.Queue.check q =
        Except.error (PyErr.runtimeError "All tasks must have different names!") ∧
      Core.Queue.run q initial stop kwargs =
        Except.error (PyErr.runtimeError "All tasks must have different names!", st) ∧
      st.trace = [] ∧ st.tasks = q.tasks := by
  have hlen : q.tasks.length = (q.tasks.map Core.QTask.name).length :=
    (List.length_map _ _).symm
  have hnames : ¬ ((q.tasks.map Core.QTask.name).all
      (fun n => (q.tasks.map Core.QTask.name).count n == 1) = true) := by
    intro hall
    have hnd := nodup_of_all_count_one _ hall
    have hinj := List.nodup_iff_injective_get.mp hnd
    have hi : (⟨i.1, hlen ▸ i.2⟩ : Fin (q.tasks.map Core.QTask.name).length) =
        ⟨j.1, hlen ▸ j.2⟩ := by
      apply hinj
      simp only [List.get_eq_getElem, List.getElem_map]
      exact hname
    have hv := congrArg Fin.val hi
    exact hij (Fin.ext hv)
  have hcheck : Core.Queue.check q =
      Except.error (PyErr.runtimeError "All tasks must have different names!") := by
    simp [Core.Queue.check, hnames]
  refine ⟨{ tasks := q.tasks, initial := initial, kwargs := kwargs,
            flag := TaskFlag.none, clock := 0, trace := [] }, hcheck, ?_, rfl, rfl⟩
  simp [Core.Queue.run, hcheck]

/-- Two queue tasks that end up with the same rendered name: both were
constructed with id 0 (the process-wide counter restarts whenever a fresh
`Queue()` is built, core.py line 130) and the same class name. -/
def c5tasks : List Core.QTask :=
  [Core.QTask.init 0 "My_func" idleBodyC, Core.QTask.init 0 "My_func" idleBodyC]

/-- Witness for C5 on a two-task queue with colliding names. -/
theorem c5_duplicate_names_prevent_run_witness :
    ∃ st, Core.Queue.check { tasks := c5tasks } =
        Except.error (PyErr.runtimeError "All tasks must have different names!") ∧
      Core.Queue.run { tasks := c5tasks } [] false [] =
        Except.error (PyErr.runtimeError "All tasks must have different names!", st) ∧
      st.trace = [] ∧ st.tasks = c5tasks :=
  c5_duplicate_names_prevent_run { tasks := c5tasks }
    ⟨0, by decide⟩ ⟨1, by decide⟩ (by decide) rfl [] false []

/-! ## Claim C7 -/

/-- Parent snapshot named `A` used by the C7 evaluation. -/
def c7parent : TaskPy.Parent :=
  { id := 0, name := "A", has_parents := false,
    flag := TaskFlag.not_started, output := Value.atom Atom.none }

/-- C7 (code bug): `remove_parent_by_name` (task.py lines 146-153, core.py
lines 377-384) iterates `for i, parent in self.parents`, tuple-unpacking
each stored `Task`, so with a parent named `A` present the call raises
`TypeError` instead of removing it; only with an empty parent list does it
reach the documented not-found `IndexError`. -/
theorem c7_remove_parent_by_name_type_error :
    (TaskPy.Task.remove_parent_by_name
        { TaskPy.Task.init 1 (some "child") idleBodyT with parents := [c7parent] } "A" =
      Except.error (PyErr.typeError "cannot unpack non-iterable Task object")) ∧
    (TaskPy.Task.remove_parent_by_name (TaskPy.Task.init 2 (some "lone") idleBodyT) "A" =
      Except.error (PyErr.indexError
        "Could not find parent with name A in list of parents")) :=
  ⟨rfl, rfl⟩

/-! ## Claim C8 -/

/-- Auxiliary: writing back the element already stored at an index leaves a
list unchanged. -/
theorem list_set_get_self {α : Type} : ∀ (l : List α) (i : Nat) (a : α),
    l.get? i = some a → l.set i a = l
  | [], i, a, h => by simp at h
  | x :: xs, 0, a, h => by
    simp at h
    simp [h]
  | x :: xs, n + 1, a, h => by
    simp only [List.set_cons_succ]
    rw [list_set_get_self xs n a (by simpa using h)]

/-- Auxiliary: removing the element just appended at the back restores the
list. -/
theorem list_eraseIdx_concat {α : Type} : ∀ (xs : List α) (x : α),
    (xs ++ [x]).eraseIdx xs.length = xs
  | [], _ => rfl
  | y :: ys, x => by
    simp only [List.cons_append, List.length_cons, List.eraseIdx_cons_succ]
    rw [list_eraseIdx_concat ys x]

/-- C8: for every queue task and every parent accepted by `add_parent`
(core.py lines 357-371), removing that parent again at the index where it
was appended (`remove_parent`, lines 373-375) restores the task exactly, so
the `get_infostr` rendering (lines 140-172) before the addition equals the
one after the removal. -/
theorem c8_add_remove_roundtrip
    (q : Core.Queue) (i : Nat) (t p t2 : Core.QTask) (u : Bool)
    (ht : q.tasks.get? i = some t)
    (hadd : Core.QTask.add_parent t q.tasks p = Except.ok t2) :
    ∃ t3, Core.QTask.remove_parent t2 t.parents.length = Except.ok t3 ∧
      Core.Queue.get_infostr (Core.Queue.setTask (Core.Queue.setTask q i t2) i t3) u =
        Core.Queue.get_infostr q u := by
  have h2 : t2 = { t with parents := t.parents ++ [p.id] } := by
    simp only [Core.QTask.add_parent] at hadd
    split_ifs at hadd
    all_goals try cases hadd
    all_goals rfl
  subst h2
  refine ⟨t, ?_, ?_⟩
  · simp only [Core.QTask.remove_parent]
    rw [if_pos (by simp)]
    rw [list_eraseIdx_concat]
  · have hset : Core.Queue.setTask (Core.Queue.setTask q i
        { t with parents := t.parents ++ [p.id] }) i t = q := by
      simp only [Core.Queue.setTask, List.set_set]
      rw [list_set_get_self q.tasks i t ht]
    rw [hset]

/-- Concrete queue for the C8 witness: tasks `A<0>` and `B<1>`. -/
def c8A : Core.QTask := Core.QTask.init 0 "A" idleBodyC

/-- Task `B<1>` of the C8 witness queue. -/
def c8B : Core.QTask := Core.QTask.init 1 "B" idleBodyC

/-- Witness for C8: attaching `A<0>` as parent of `B<1>` and removing it at
the appended index restores the rendering. -/
theorem c8_add_remove_roundtrip_witness :
    ∃ t3, Core.QTask.remove_parent { c8B with parents := [0] } c8B.parents.length =
        Except.ok t3 ∧
      Core.Queue.get_infostr (Core.Queue.setTask (Core.Queue.setTask
          { tasks := [c8A, c8B] } 1 { c8B with parents := [0] }) 1 t3) false =
        Core.Queue.get_infostr { tasks := [c8A, c8B] } false :=
  c8_add_remove_roundtrip { tasks := [c8A, c8B] } 1 c8B c8A
    { c8B with parents := [0] } false rfl rfl

/-! ## Claims C9 and C10 -/

/-- Auxiliary: the report loop succeeds with one line per task when every
line formats. -/
theorem mapLines_ok_of_forall (f : Core.QTask → Except PyErr String) :
    ∀ (l : List Core.QTask), (∀ t ∈ l, ∃ s, f t = Except.ok s) →
    ∃ ss, Core.mapLines f l = Except.ok ss ∧ ss.length = l.length
  | [], _ => ⟨[], rfl, rfl⟩
  | t :: ts, h => by
    obtain ⟨s, hs⟩ := h t (List.mem_cons_self t ts)
    obtain ⟨ss, hss, hlen⟩ :=
      mapLines_ok_of_forall f ts (fun x hx => h x (List.mem_cons_of_mem t hx))
    exact ⟨s :: ss, by simp [Core.mapLines, hs, hss], by simp [hlen]⟩

/-- Auxiliary: the report loop raises as soon as any line fails to
format. -/
theorem mapLines_error_of_mem (f : Core.QTask → Except PyErr String) :
    ∀ (l : List Core.QTask) (x : Core.QTask), x ∈ l → (∃ e, f x = Except.error e) →
    ∃ e, Core.mapLines f l = Except.error e
  | [], x, hx, _ => absurd hx (List.not_mem_nil x)
  | t :: ts, x, hx, hf => by
    cases hft : f t with
    | error e => exact ⟨e, by simp [Core.mapLines, hft]⟩
    | ok s =>
      have hxts : x ∈ ts := by
        rcases List.mem_cons.mp hx with h | h
        · obtain ⟨e, he⟩ := hf
          rw [h, hft] at he
          cases he
        · exact h
      obtain ⟨e, he⟩ := mapLines_error_of_mem f ts x hxts hf
      exact ⟨e, by simp [Core.mapLines, hft, he]⟩

/-- Auxiliary: a report line formats whenever both timestamps are set. -/
theorem reportLine_ok (w : Nat) (t : Core.QTask)
    (hs : t.start_time.isSome = true) (he : t.end_time.isSome = true) :
    ∃ s, Core.reportLine w t = Except.ok s := by
  obtain ⟨a, ha⟩ := Option.isSome_iff_exists.mp hs
  obtain ⟨b, hb⟩ := Option.isSome_iff_exists.mp he
  cases hres : Core.reportLine w t with
  | ok s => exact ⟨s, rfl⟩
  | error e =>
    exfalso
    cases herr : t.err_msg <;>
      simp [Core.reportLine, ha, hb, herr, Core.pyFormatOpt] at hres

/-- C9 (amended): `report` (core.py lines 262-280) fails on an empty graph
— Python `max` raises on the empty name sequence of line 264 — and on a
non-empty graph **whose tasks have all been invoked** (both timestamps set)
it emits exactly one line per task; without that condition the timestamp
formatting raises, see the counterexample and claim C10. -/
theorem c9_report_empty_fails_nonempty_lines
    (q : Core.Queue)
    (hts : ∀ t ∈ q.tasks, t.start_time.isSome = true ∧ t.end_time.isSome = true) :
    (q.tasks = [] → Core.Queue.report q =
        Except.error (PyErr.valueError "max() arg is an empty sequence")) ∧
    (q.tasks ≠ [] → ∃ lines, Core.Queue.report q = Except.ok lines ∧
        lines.length = q.tasks.length) := by
  constructor
  · intro hq
    simp [Core.Queue.report, hq, Core.maxNameLen]
  · intro hq
    obtain ⟨a, ts, hats⟩ := List.exists_cons_of_ne_nil hq
    have hmax : Core.maxNameLen q.tasks =
        Except.ok ((a :: ts).foldl (fun m x => max m x.name.length) 0) := by
      rw [hats]
      rfl
    obtain ⟨lines, hl, hlen⟩ := mapLines_ok_of_forall
      (Core.reportLine ((a :: ts).foldl (fun m x => max m x.name.length) 0 + 2)) q.tasks
      (fun t htm => reportLine_ok _ t (hts t htm).1 (hts t htm).2)
    refine ⟨lines, ?_, hlen⟩
    simp only [Core.Queue.report, hmax]
    exact hl

/-- Queue task that has been through an invocation: both timestamps set. -/
def c9doneTask : Core.QTask :=
  { Core.QTask.init 0 "A" idleBodyC with
    flag := TaskFlag.succeeded, start_time := some 0, end_time := some 1 }

/-- Witness for C9 on a one-task queue whose task has both timestamps. -/
theorem c9_report_witness :
    ∃ lines, Core.Queue.report { tasks := [c9doneTask] } = Except.ok lines ∧
      lines.length = ([c9doneTask] : List Core.QTask).length :=
  (c9_report_empty_fails_nonempty_lines { tasks := [c9doneTask] }
    (by intro t htm
        rw [List.mem_singleton] at htm
        subst htm
        exact ⟨rfl, rfl⟩)).2 (by simp)

/-- C9 counterexample: a non-empty graph whose single task was never
invoked.  The claim as stated promises one report line per task for every
non-empty graph, but `report` raises `TypeError` while formatting the
still-unset start timestamp (core.py line 280), so no report is emitted. -/
theorem c9_report_counterexample :
    Core.Queue.report { tasks := [Core.QTask.init 0 "A" idleBodyC] } =
      Except.error
        (PyErr.typeError "unsupported format string passed to NoneType.__format__") :=
  rfl

/-- C10: for every non-empty graph containing a task that was never invoked
(both timestamps still unset), `report` (core.py lines 262-280) raises
instead of emitting the report, because the `{start:>} - {end:>}` format of
lines 277/280 raises `TypeError` on `None`; in particular `report` always
fails when called before `run`, or after a stop-on-error abort left a later
task in `not_started`. -/
theorem c10_report_raises_on_never_invoked
    (q : Core.Queue) (hne : q.tasks ≠ [])
    (t : Core.QTask) (hmem : t ∈ q.tasks)
    (hs : t.start_time = Option.none) (_he : t.end_time = Option.none) :
    ∃ e, Core.Queue.report q = Except.error e := by
  obtain ⟨a, ts, hats⟩ := List.exists_cons_of_ne_nil hne
  have hmax : Core.maxNameLen q.tasks =
      Except.ok ((a :: ts).foldl (fun m x => max m x.name.length) 0) := by
    rw [hats]
    rfl
  have hline : ∃ e, Core.reportLine
      ((a :: ts).foldl (fun m x => max m x.name.length) 0 + 2) t = Except.error e :=
    ⟨PyErr.typeError "unsupported format string passed to NoneType.__format__",
     by simp only [Core.reportLine, hs, Core.pyFormatOpt]⟩
  obtain ⟨e, he2⟩ := mapLines_error_of_mem
    (Core.reportLine ((a :: ts).foldl (fun m x => max m x.name.length) 0 + 2))
    q.tasks t hmem hline
  refine ⟨e, ?_⟩
  simp only [Core.Queue.report, hmax]
  exact he2

/-- Witness for C10 on a two-task queue whose second task never ran. -/
theorem c10_report_raises_witness :
    ∃ e, Core.Queue.report { tasks := [c9doneTask, Core.QTask.init 1 "B" idleBodyC] } =
      Except.error e :=
  c10_report_raises_on_never_invoked
    { tasks := [c9doneTask, Core.QTask.init 1 "B" idleBodyC] } (by simp)
    (Core.QTask.init 1 "B" idleBodyC)
    (List.mem_cons_of_mem _ (List.mem_singleton.mpr rfl)) rfl rfl

/-! ## Claim C1 -/

/-- C1 (amended, core generation): inside `Queue.run` of core.py lines
231-245 the parent scan tries the parents in attachment order; every parent
before the first succeeded one is skipped without an invocation, the task is
fed exactly once — from that first succeeded parent, through
`invokeFromParent`, i.e. with the parent output (merged with `initial` and
the run kwargs) as payload and **no** separate flag argument — and the
`break` discards all later parents, succeeded or not. -/
theorem c1_core_first_succeeded_parent_wins
    (tasks : List Core.QTask) (t : Core.QTask) (initial kwargs : Kwargs)
    (stop : Bool) (clock : Nat) (ps1 ps2 : List Nat) (p : Nat)
    (h1 : ∀ x ∈ ps1, (Core.resolve tasks x).flag ≠ TaskFlag.succeeded)
    (h2 : (Core.resolve tasks p).flag = TaskFlag.succeeded) :
    Core.scanParentsCore tasks t initial kwargs stop clock (ps1 ++ p :: ps2) =
      (Core.invokeFromParent t initial kwargs stop clock (Core.resolve tasks p)).map some := by
  induction ps1 with
  | nil =>
    simp only [List.nil_append, Core.scanParentsCore]
    rw [if_pos h2]
  | cons a as ih =>
    simp only [List.cons_append, Core.scanParentsCore]
    rw [if_neg (h1 a (List.mem_cons_self a as))]
    exact ih (fun x hx => h1 x (List.mem_cons_of_mem a hx))

/-- Parent with flag `failed` for the C1 witness. -/
def c1pFail : Core.QTask :=
  { Core.QTask.init 0 "P1" idleBodyC with
    flag := TaskFlag.failed,
    output := Value.dict [("result", Atom.nat 1)] }

/-- Parent with flag `succeeded` for the C1 witness. -/
def c1pSucc : Core.QTask :=
  { Core.QTask.init 1 "P2" idleBodyC with
    flag := TaskFlag.succeeded,
    output := Value.dict [("result", Atom.nat 2)] }

/-- Child task of the C1 witness, with parents `[P1, P2]`. -/
def c1child : Core.QTask :=
  { Core.QTask.init 2 "C" idleBodyC with parents := [0, 1] }

/-- Witness for C1 on parents `[P1 failed, P2 succeeded]`: the scan feeds
the task from `P2` and never from `P1`. -/
theorem c1_core_first_succeeded_parent_wins_witness :
    Core.scanParentsCore [c1pFail, c1pSucc] c1child [] [] false 0 ([0] ++ 1 :: []) =
      (Core.invokeFromParent c1child [] [] false 0
        (Core.resolve [c1pFail, c1pSucc] 1)).map some :=
  c1_core_first_succeeded_parent_wins [c1pFail, c1pSucc] c1child [] [] false 0
    [0] [] 1 (by decide) (by decide)

/-- Succeeding body with output `{result: 1}` for the C1 counterexample. -/
def c1bodyA : TaskFlag → Value → Except PyErr (TaskFlag × Value) :=
  fun _ _ => Except.ok (TaskFlag.succeeded, Value.dict [("result", Atom.nat 1)])

/-- Succeeding body with output `{result: 2}` for the C1 counterexample. -/
def c1bodyB : TaskFlag → Value → Except PyErr (TaskFlag × Value) :=
  fun _ _ => Except.ok (TaskFlag.succeeded, Value.dict [("result", Atom.nat 2)])

/-- Queue for the C1 counterexample: `P1` and `P2` both succeed, `C` lists
both as parents in that order. -/
def c1queue : Qpy.Queue :=
  { tasks := [TaskPy.Task.init 0 (some "P1") c1bodyA,
              TaskPy.Task.init 1 (some "P2") c1bodyB,
              { TaskPy.Task.init 2 (some "C") idleBodyT with
                parents := [TaskPy.Parent.ofTask (TaskPy.Task.init 0 (some "P1") c1bodyA),
                            TaskPy.Parent.ofTask (TaskPy.Task.init 1 (some "P2") c1bodyB)] }] }

/-- C1 counterexample: in the queue.py generation (`Queue.run`, queue.py
lines 78-85) the parent scan has no `break`, so with two succeeded parents
the task body is invoked **twice** — once per succeeded parent — refuting
that the task is invoked exactly once and that scanning stops at the first
succeeded parent. -/
theorem c1_qpy_no_break_counterexample :
    (qpyRunTrace (Qpy.Queue.run c1queue (Value.dict []))).filter
        (fun inv => inv.task_id == 2) =
      [{ task_id := 2, flag := TaskFlag.succeeded,
         input := Value.dict [("result", Atom.nat 1)] },
       { task_id := 2, flag := TaskFlag.succeeded,
         input := Value.dict [("result", Atom.nat 2)] }] := by
  decide

/-! ## Claim C4 -/

/-- Auxiliary: the queue.py parent scan is a no-op — no invocation, and
`all_parents_failed` stays `True` — when no parent resolves to flag
`succeeded`. -/
theorem scanParentsQ_all_failed (tasks : List TaskPy.Task) (t : TaskPy.Task)
    (clock : Nat) (trace : List Qpy.Invocation) :
    ∀ (ps : List TaskPy.Parent),
    (∀ pr ∈ ps, (Qpy.resolveParentState tasks pr).1 ≠ TaskFlag.succeeded) →
    Qpy.scanParentsQ tasks t clock trace ps = (t, clock, trace, true)
  | [], _ => rfl
  | pr :: rest, h => by
    simp only [Qpy.scanParentsQ]
    rw [if_neg (h pr (List.mem_cons_self pr rest))]
    exact scanParentsQ_all_failed tasks t clock trace rest
      (fun x hx => h x (List.mem_cons_of_mem pr hx))

/-- C4 (amended, queue.py generation): a task with parents none of which
has flag `succeeded` is still invoked — exactly once, by the fallback of
queue.py lines 86-91 — with the effective flag `failed` and the
empty/initial payload, and `failed` becomes the loop-carried flag.  The
core.py generation violates the claim when a parent has not run yet, see
the counterexample. -/
theorem c4_qpy_all_parents_failed_still_runs
    (st : Qpy.RunSt) (i : Nat) (initial : Value) (t : TaskPy.Task)
    (ht : st.tasks.get? i = some t)
    (hp : t.parents ≠ [])
    (hf : ∀ pr ∈ t.parents, (Qpy.resolveParentState st.tasks pr).1 ≠ TaskFlag.succeeded) :
    (Qpy.runTaskQ initial st i).trace =
      st.trace ++ [{ task_id := t.id, flag := TaskFlag.failed,
                     input := if i = 0 then initial else Value.dict [] }] ∧
    (Qpy.runTaskQ initial st i).flag = TaskFlag.failed := by
  simp only [Qpy.runTaskQ, ht, Option.getD_some]
  rw [if_pos hp]
  rw [scanParentsQ_all_failed st.tasks t st.clock st.trace t.parents hf]
  exact ⟨rfl, rfl⟩

/-- Parent task with flag `failed` for the C4 witness. -/
def c4wParent : TaskPy.Task :=
  { TaskPy.Task.init 0 (some "P") idleBodyT with flag := TaskFlag.failed }

/-- Child of the C4 witness with the failed parent attached. -/
def c4wChild : TaskPy.Task :=
  { TaskPy.Task.init 1 (some "C") idleBodyT with
    parents := [TaskPy.Parent.ofTask c4wParent] }

/-- Witness for C4: the child with a single failed parent is invoked with
flag `failed` and the empty payload. -/
theorem c4_qpy_all_parents_failed_still_runs_witness :
    (Qpy.runTaskQ (Value.dict [])
        { tasks := [c4wParent, c4wChild],
          flag := TaskFlag.none, clock := 4, trace := [] } 1).trace =
      [] ++ [{ task_id := 1, flag := TaskFlag.failed,
               input := if 1 = 0 then Value.dict [] else Value.dict [] }] ∧
    (Qpy.runTaskQ (Value.dict [])
        { tasks := [c4wParent, c4wChild],
          flag := TaskFlag.none, clock := 4, trace := [] } 1).flag = TaskFlag.failed :=
  c4_qpy_all_parents_failed_still_runs
    { tasks := [c4wParent, c4wChild], flag := TaskFlag.none, clock := 4, trace := [] }
    1 (Value.dict []) c4wChild rfl (by decide) (by decide)

/-- Task `B<0>` whose single parent `A<1>` sits after it in the queue. -/
def c4B : Core.QTask := { Core.QTask.init 0 "B" idleBodyC with parents := [1] }

/-- Task `A<1>`, positioned after its dependent and hence never run when
`B` executes. -/
def c4A : Core.QTask := Core.QTask.init 1 "A" idleBodyC

/-- C4 counterexample: in the core generation (core.py lines 246-253), when
the scanned parent has not run (`output` still `None`, flag not
`succeeded`), the fallback evaluates the key test `flag not in parent_task.output` on
`None` and raises `TypeError`: the run aborts with an empty trace — the
task is **not** invoked, refuting the claim for core.py. -/
theorem c4_core_unrun_parent_counterexample :
    coreRunErr (Core.Queue.run { tasks := [c4B, c4A] } [] false []) =
      some (PyErr.typeError "argument of type NoneType is not iterable") ∧
    coreRunTrace (Core.Queue.run { tasks := [c4B, c4A] } [] false []) = [] ∧
    coreRunFlags (Core.Queue.run { tasks := [c4B, c4A] } [] false []) =
      [TaskFlag.not_started, TaskFlag.not_started] := by
  refine ⟨rfl, rfl, rfl⟩

/-! ## Claim C2 -/

/-- Five-task queue of the stop-on-error scenario: the first two bodies
return normally with arbitrary outputs, the third raises an arbitrary
failure, the last two have arbitrary bodies (they are never reached). -/
def c2mk (o1 o2 : Value) (e : PyErr)
    (b4 b5 : List Value → Kwargs → Except PyErr Value) : Core.Queue :=
  { tasks := [Core.QTask.init 0 "A" (fun _ _ => Except.ok o1),
              Core.QTask.init 1 "B" (fun _ _ => Except.ok o2),
              Core.QTask.init 2 "C" (fun _ _ => Except.error e),
              Core.QTask.init 3 "D" b4,
              Core.QTask.init 4 "E" b5] }

/-- C2: with `stop_queue_on_error=True` (core.py lines 338-355 re-raise,
lines 194-260 propagate), a body that raises on the third of five tasks
makes `run` propagate the wrapped failure to its caller; only three
invocations ever happen and tasks 4 and 5 (and the aborted third task)
remain in flag `not_started`. -/
theorem c2_stop_on_error_propagates (o1 o2 : Value) (e : PyErr)
    (b4 b5 : List Value → Kwargs → Except PyErr Value) :
    coreRunErr (Core.Queue.run (c2mk o1 o2 e b4 b5) [] true []) =
      some (PyErr.exceptionWrap e) ∧
    coreRunFlags (Core.Queue.run (c2mk o1 o2 e b4 b5) [] true []) =
      [TaskFlag.succeeded, TaskFlag.succeeded, TaskFlag.not_started,
       TaskFlag.not_started, TaskFlag.not_started] ∧
    (coreRunTrace (Core.Queue.run (c2mk o1 o2 e b4 b5) [] true [])).length = 3 := by
  refine ⟨?_, ?_, ?_⟩ <;> with_unfolding_all rfl

end PyDQueue
